import Mathlib

/-!
Verification of the PR-agent MCP server core (server.py): the change
inspector (analyze_file_changes), the template registry (get_pr_templates)
and the template recommender (suggest_template).

Python strings are modelled as Lean String values; the handful of Python
string primitives the source uses (split, join, strip, lower, substring
containment, slicing, str() of an integer) are embedded explicitly below,
matching Python semantics. External effects (the three git subprocesses and
the template-directory file reads) are passed in as explicit inputs, so
every operation becomes a pure function of its parameters and the observed
outside world.
-/

/-- Python s.split(sep) for a single-character separator, on character
lists: splitting never drops empty chunks and the empty string splits to
one empty chunk. -/
def pySplitChar (sep : Char) : List Char → List (List Char)
  | [] => [[]]
  | c :: cs =>
    if c = sep then [] :: pySplitChar sep cs
    else
      match pySplitChar sep cs with
      | [] => [[c]]
      | h :: t => (c :: h) :: t

/-- Python s.split(sep) on Lean strings. -/
def pySplit (s : String) (sep : Char) : List String :=
  (pySplitChar sep s.data).map String.mk

/-- Python sep.join(xs) for a single-character separator, on character
lists. -/
def pyJoinChar (sep : Char) : List (List Char) → List Char
  | [] => []
  | [x] => x
  | x :: y :: ys => x ++ sep :: pyJoinChar sep (y :: ys)

/-- Python sep.join(xs) on Lean strings. -/
def pyJoin (sep : Char) (xs : List String) : String :=
  String.mk (pyJoinChar sep (xs.map String.data))

/-- Python str.strip() whitespace test (ASCII whitespace). -/
def pyIsSpace (c : Char) : Bool :=
  c == ' ' || c == '\t' || c == '\n' || c == '\r' || c == '\x0b' || c == '\x0c'

/-- Python s.strip(): drop leading and trailing whitespace. -/
def pyStrip (s : String) : String :=
  String.mk (((s.data.dropWhile pyIsSpace).reverse.dropWhile pyIsSpace).reverse)

/-- Python s.lower() (ASCII case folding, which covers every string the
source manipulates). -/
def pyLower (s : String) : String :=
  String.mk (s.data.map Char.toLower)

/-- Python substring containment, needle in hay. -/
def pyIn (needle hay : String) : Bool :=
  (List.range (hay.data.length + 1)).any (fun i => needle.data.isPrefixOf (hay.data.drop i))

/-- Python list slicing xs[:n], including the negative-bound case. -/
def pyTake {α : Type} (n : Int) (xs : List α) : List α :=
  if 0 ≤ n then xs.take n.toNat else xs.take ((xs.length : Int) + n).toNat

/-- Digit accumulator for decimal rendering; fuel-recursive so that it
reduces definitionally. -/
def natDigitsAux : Nat → Nat → List Char → List Char
  | 0, _, acc => acc
  | fuel + 1, n, acc =>
    if n < 10 then Nat.digitChar n :: acc
    else natDigitsAux fuel (n / 10) (Nat.digitChar (n % 10) :: acc)

/-- Python str(n) for a non-negative integer. -/
def pyStrNat (n : Nat) : String :=
  String.mk (natDigitsAux (n + 1) n [])

/-- Python str(i) for an arbitrary integer. -/
def pyStrInt : Int → String
  | .ofNat m => pyStrNat m
  | .negSucc m => "-" ++ pyStrNat (m + 1)

/-- Python pathlib Path(name).stem: the file name with its last extension
removed (a lone leading dot is not an extension). -/
def pyStem (name : String) : String :=
  match (name.data.reverse).findIdx? (fun c => c == '.') with
  | none => name
  | some i =>
    let cut := name.data.length - 1 - i
    if cut = 0 then name else String.mk (name.data.take cut)

/-- Captured outcome of one subprocess.run invocation of git. -/
structure GitResult where
  returncode : Int
  stdout : String
  stderr : String
deriving DecidableEq

/-- One entry of the files_changed list in the analyze_file_changes
response. -/
structure ChangedFile where
  status : String
  filename : String
deriving DecidableEq

/-- The JSON document analyze_file_changes returns: either an error object
carrying the failing command, or the stats / total_diff_lines /
files_changed / diff object. -/
inductive AnalyzeResult where
  | err (error command : String)
  | ok (stats : String) (total_diff_lines : Nat) (files_changed : List ChangedFile) (diff : String)
deriving DecidableEq

/-- Parsing of one git name-status output line: empty lines are skipped,
other lines are split on tab and contribute one entry when at least two
fields are present (fields beyond the second are dropped). -/
def parseNameStatusLine (line : String) : List ChangedFile :=
  if line = "" then []
  else
    match pySplit line '\t' with
    | status :: filename :: _ => [⟨status, filename⟩]
    | _ => []

/-- The changed-files parsing loop of analyze_file_changes, applied to the
raw stdout of git diff --name-status. -/
def parse_changed_files (files_stdout : String) : List ChangedFile :=
  ((pySplit (pyStrip files_stdout) '\n').map parseNameStatusLine).flatten

/-- The truncation notice appended to an over-long diff, with its leading
blank line exactly as the source f-string produces it. -/
def truncationNotice (max_diff_lines : Int) (total_lines : Nat) : String :=
  "\n\n... Output truncated. Showing " ++ pyStrInt max_diff_lines ++ " of "
    ++ pyStrNat total_lines ++ " lines ..."

/-- The diff_output value analyze_file_changes computes from the raw diff
stdout: kept verbatim when it fits, otherwise the first max_diff_lines
lines followed by the truncation notice. -/
def computeDiffOutput (max_diff_lines : Int) (diff_stdout : String) : String :=
  let diff_lines := pySplit diff_stdout '\n'
  let total_lines := diff_lines.length
  if (total_lines : Int) > max_diff_lines then
    pyJoin '\n' (pyTake max_diff_lines diff_lines) ++ truncationNotice max_diff_lines total_lines
  else diff_stdout

/-- analyze_file_changes as a function of its parameters and the three git
command outcomes (full diff, diff --stat, diff --name-status), mirroring
the source control flow: each failing command aborts the call with its own
error object, otherwise the response object is built. -/
def analyze_file_changes (base_branch : String) (include_diff : Bool) (max_diff_lines : Int)
    (diff_result stats_result files_result : GitResult) : AnalyzeResult :=
  if diff_result.returncode ≠ 0 then
    .err ("Git diff command failed: " ++ diff_result.stderr)
      (pyJoin ' ' ["git", "diff", base_branch ++ "...HEAD"])
  else if stats_result.returncode ≠ 0 then
    .err ("Git diff --stat command failed: " ++ stats_result.stderr)
      (pyJoin ' ' ["git", "diff", "--stat", base_branch ++ "...HEAD"])
  else if files_result.returncode ≠ 0 then
    .err ("Git diff --name-status command failed: " ++ files_result.stderr)
      (pyJoin ' ' ["git", "diff", "--name-status", base_branch ++ "...HEAD"])
  else
    .ok stats_result.stdout (pySplit diff_result.stdout '\n').length
      (parse_changed_files files_result.stdout)
      (if include_diff then computeDiffOutput max_diff_lines diff_result.stdout
       else "Diff not included (set include_diff=true to see it)")

/-- Outcome of reading one template file from the templates directory. -/
inductive ReadOutcome where
  | ok (content : String)
  | err (message : String)
deriving DecidableEq

/-- One value of the templates mapping get_pr_templates returns: either a
successfully read template (name, path, content) or the inline error
record a failed read leaves behind. -/
inductive TemplateVal where
  | ok (name path content : String)
  | err (name error : String)
deriving DecidableEq

/-- The JSON document get_pr_templates returns: a missing-directory error,
or the templates mapping (count is its length, so it is not stored
separately). -/
inductive TemplatesResult where
  | err (error : String)
  | ok (templates : List (String × TemplateVal))
deriving DecidableEq

/-- The key/value pair one directory entry contributes to the templates
dictionary: a readable file is keyed by its stem, an unreadable one by its
full name with an error message in place of content. -/
def templateEntry (templates_dir : String) (file : String × ReadOutcome) : String × TemplateVal :=
  match file with
  | (filename, .ok content) =>
      (pyStem filename, .ok (pyStem filename) (templates_dir ++ "/" ++ filename) content)
  | (filename, .err e) => (filename, .err filename ("Failed to read template: " ++ e))

/-- Python dict assignment d[k] = v: overwrite in place when the key
exists, append otherwise. -/
def dictInsert {α : Type} : List (String × α) → String → α → List (String × α)
  | [], k, v => [(k, v)]
  | (k0, v0) :: t, k, v =>
    if k0 = k then (k, v) :: t else (k0, v0) :: dictInsert t k v

/-- The templates dictionary built by the read loop of get_pr_templates
over the directory listing in discovery order. -/
def buildRegistry (templates_dir : String) (files : List (String × ReadOutcome)) :
    List (String × TemplateVal) :=
  files.foldl
    (fun d f => dictInsert d (templateEntry templates_dir f).1 (templateEntry templates_dir f).2) []

/-- get_pr_templates as a function of the directory state: dir_ok is the
exists-and-is-a-directory check, files the glob listing paired with each
read outcome. -/
def get_pr_templates (templates_dir : String) (dir_ok : Bool)
    (files : List (String × ReadOutcome)) : TemplatesResult :=
  if dir_ok then .ok (buildRegistry templates_dir files)
  else .err ("Templates directory not found at " ++ templates_dir)

/-- The JSON document suggest_template returns: an error object with
suggestion null, or a suggestion with its template, confidence and
reason. -/
inductive SuggestResult where
  | errNone (error : String)
  | found (suggestion : String) (template : TemplateVal) (confidence reason : String)
deriving DecidableEq

/-- The direct-mapping table of common change types, in source declaration
order. -/
def common_types : List (String × String) :=
  [("bug", "bug"), ("fix", "bug"), ("bugfix", "bug"),
   ("feature", "feature"), ("feat", "feature"), ("enhancement", "feature"),
   ("docs", "docs"), ("documentation", "docs"),
   ("refactor", "refactor"),
   ("test", "test"), ("tests", "test"), ("testing", "test"),
   ("security", "security"),
   ("performance", "performance"), ("perf", "performance"), ("optimization", "performance")]

/-- The keyword table of the scoring stage, in source declaration order:
bug, feature, docs, refactor, test, security, performance. -/
def keywords : List (String × List String) :=
  [("bug", ["bug", "fix", "issue", "problem", "error", "crash", "resolve"]),
   ("feature", ["feature", "add", "new", "implement", "enhancement", "functionality"]),
   ("docs", ["docs", "documentation", "readme", "comment", "guide", "tutorial"]),
   ("refactor", ["refactor", "clean", "improve", "simplify", "restructure", "redesign"]),
   ("test", ["test", "coverage", "unit test", "integration test", "e2e", "testing"]),
   ("security", ["security", "vulnerability", "secure", "protect", "encrypt", "auth"]),
   ("performance", ["performance", "optimize", "speed", "efficient", "fast", "slow"])]

/-- Python dict lookup d.get(k) on an association list (keys are unique in
every dictionary the source builds). -/
def alistGet? {α : Type} : List (String × α) → String → Option α
  | [], _ => none
  | (k0, v) :: t, k => if k0 = k then some v else alistGet? t k

/-- The per-category keyword scores over the lowered summary, in table
order; counting the keywords contained in the summary equals the source
per-word increment loop. -/
def computeScores (summary_lower : String) : List (String × Nat) :=
  keywords.map (fun p => (p.1, (p.2.filter (fun w => pyIn w summary_lower)).length))

/-- One step of Python max(..., key=second component): the current best is
replaced only on a strictly larger score, so the first maximum wins. -/
def maxStep (best x : String × Nat) : String × Nat :=
  if x.2 > best.2 then x else best

/-- Python max(scores.items(), key=score) over the scores list (never
empty in the source; the empty case is a junk value). -/
def bestMatch (scores : List (String × Nat)) : String × Nat :=
  match scores with
  | [] => ("", 0)
  | h :: t => t.foldl maxStep h

/-- The stage-3 default of suggest_template: the feature template when
present, else the first registry entry; the empty case is unreachable past
the count guard (Python would raise StopIteration, caught into an error
object whose message is the empty rendering of that exception). -/
def defaultFallback (templates : List (String × TemplateVal)) : SuggestResult :=
  match alistGet? templates "feature", templates with
  | some tpl, _ =>
      .found "feature" tpl "low" "No strong match found, defaulting to feature template"
  | none, [] => .errNone ""
  | none, (first_name, first_tpl) :: _ =>
      .found first_name first_tpl "low" "No match found, using first available template"

/-- The stage-2 keyword scoring of suggest_template: suggest the winning
category only when its score is positive and its template exists,
otherwise fall through to the default. -/
def keywordStage (changes_summary : String) (templates : List (String × TemplateVal)) :
    SuggestResult :=
  let best := bestMatch (computeScores (pyLower changes_summary))
  if best.2 > 0 then
    match alistGet? templates best.1 with
    | some tpl =>
        .found best.1 tpl (if best.2 > 2 then "medium" else "low")
          ("Based on " ++ pyStrNat best.2 ++ " keyword matches in the changes summary")
    | none => defaultFallback templates
  else defaultFallback templates

/-- The stage-1 test of suggest_template, the Python conjunction
suggested_template and suggested_template in templates: the normalized
change type maps through the synonym table and the mapped name must be a
registry key. -/
def directMatch (change_type_normalized : String)
    (templates : List (String × TemplateVal)) : Option (String × TemplateVal) :=
  (alistGet? common_types change_type_normalized).bind
    (fun suggested => (alistGet? templates suggested).map (fun tpl => (suggested, tpl)))

/-- The recommender body once the registry snapshot is in hand: empty
registry error, then direct mapping, then keyword scoring, then default
fallback. -/
def suggestFromTemplates (changes_summary change_type : String)
    (templates : List (String × TemplateVal)) : SuggestResult :=
  if templates.length = 0 then .errNone "No templates available"
  else
    match directMatch (pyStrip (pyLower change_type)) templates with
    | some (suggested, tpl) =>
        .found suggested tpl "high"
          ("Direct match for change type \x27" ++ change_type ++ "\x27")
    | none => keywordStage changes_summary templates

/-- suggest_template as a function of its parameters and the templates
directory state it fetches through get_pr_templates. -/
def suggest_template (changes_summary change_type : String) (templates_dir : String)
    (dir_ok : Bool) (files : List (String × ReadOutcome)) : SuggestResult :=
  match get_pr_templates templates_dir dir_ok files with
  | .err e => .errNone ("Failed to get templates: " ++ e)
  | .ok templates => suggestFromTemplates changes_summary change_type templates

theorem string_data_append (a b : String) : (a ++ b).data = a.data ++ b.data := rfl

theorem pySplitChar_ne_nil (sep : Char) (l : List Char) : pySplitChar sep l ≠ [] := by
  cases l with
  | nil => simp [pySplitChar]
  | cons c cs =>
    simp only [pySplitChar]
    split
    · simp
    · split <;> simp

theorem pySplitChar_cons_of_ne (sep c : Char) (cs : List Char) (hc : ¬ c = sep)
    (h : List Char) (t : List (List Char)) (hs : pySplitChar sep cs = h :: t) :
    pySplitChar sep (c :: cs) = (c :: h) :: t := by
  simp only [pySplitChar]
  rw [if_neg hc, hs]

theorem exists_cons_pySplitChar (sep : Char) (cs : List Char) :
    ∃ h t, pySplitChar sep cs = h :: t := by
  cases hx : pySplitChar sep cs with
  | nil => exact absurd hx (pySplitChar_ne_nil sep cs)
  | cons h t => exact ⟨h, t, rfl⟩

theorem pySplitChar_append (sep : Char) (a b : List Char) :
    pySplitChar sep (a ++ sep :: b) = pySplitChar sep a ++ pySplitChar sep b := by
  induction a with
  | nil => simp [pySplitChar]
  | cons c cs ih =>
    by_cases hc : c = sep
    · subst hc
      simp [pySplitChar, ih]
    · obtain ⟨h, t, hht⟩ := exists_cons_pySplitChar sep cs
      rw [List.cons_append,
        pySplitChar_cons_of_ne sep c (cs ++ sep :: b) hc h (t ++ pySplitChar sep b)
          (by rw [ih, hht]; rfl),
        pySplitChar_cons_of_ne sep c cs hc h t hht]
      rfl

theorem pySplitChar_of_not_mem (sep : Char) (l : List Char) (h : sep ∉ l) :
    pySplitChar sep l = [l] := by
  induction l with
  | nil => rfl
  | cons c cs ih =>
    have hc : ¬ c = sep := by rintro rfl; exact h (List.mem_cons_self c cs)
    have hcs : sep ∉ cs := fun m => h (List.mem_cons_of_mem c m)
    exact pySplitChar_cons_of_ne sep c cs hc cs [] (ih hcs)

theorem not_mem_of_mem_pySplitChar (sep : Char) (l : List Char) (x : List Char)
    (hx : x ∈ pySplitChar sep l) : sep ∉ x := by
  induction l generalizing x with
  | nil =>
    simp only [pySplitChar, List.mem_singleton] at hx
    subst hx; simp
  | cons c cs ih =>
    by_cases hc : c = sep
    · subst hc
      simp only [pySplitChar, if_pos rfl] at hx
      rcases List.mem_cons.mp hx with h | h
      · subst h; simp
      · exact ih x h
    · obtain ⟨h, t, hht⟩ := exists_cons_pySplitChar sep cs
      rw [pySplitChar_cons_of_ne sep c cs hc h t hht] at hx
      rcases List.mem_cons.mp hx with hx | hx
      · subst hx
        intro hm
        rcases List.mem_cons.mp hm with hm | hm
        · exact hc hm.symm
        · exact ih h (by rw [hht]; exact List.mem_cons_self h t) hm
      · exact ih x (by rw [hht]; exact List.mem_cons_of_mem h hx)

theorem pySplitChar_pyJoinChar (sep : Char) (xs : List (List Char))
    (hx : ∀ x ∈ xs, sep ∉ x) (hne : xs ≠ []) :
    pySplitChar sep (pyJoinChar sep xs) = xs := by
  induction xs with
  | nil => exact absurd rfl hne
  | cons x ys ih =>
    cases ys with
    | nil =>
      simpa [pyJoinChar] using pySplitChar_of_not_mem sep x (hx x (List.mem_cons_self x []))
    | cons y zs =>
      rw [show pyJoinChar sep (x :: y :: zs) = x ++ sep :: pyJoinChar sep (y :: zs) from rfl,
        pySplitChar_append,
        pySplitChar_of_not_mem sep x (hx x (List.mem_cons_self _ _)),
        ih (fun z hz => hx z (List.mem_cons_of_mem x hz)) (by simp)]
      rfl

theorem digitChar_ne_newline (m : Nat) : Nat.digitChar m ≠ '\n' := by
  by_cases hm : m < 16
  · interval_cases m <;> decide
  · intro h
    unfold Nat.digitChar at h
    repeat rw [if_neg (by omega)] at h
    exact absurd h (by decide)

theorem newline_not_mem_natDigitsAux (fuel : Nat) : ∀ (n : Nat) (acc : List Char),
    '\n' ∉ acc → '\n' ∉ natDigitsAux fuel n acc := by
  induction fuel with
  | zero => intro n acc hacc; simpa [natDigitsAux] using hacc
  | succ f ih =>
    intro n acc hacc
    simp only [natDigitsAux]
    split
    · intro hm
      rcases List.mem_cons.mp hm with hm | hm
      · exact digitChar_ne_newline n hm.symm
      · exact hacc hm
    · refine ih (n / 10) _ ?_
      intro hm
      rcases List.mem_cons.mp hm with hm | hm
      · exact digitChar_ne_newline (n % 10) hm.symm
      · exact hacc hm

theorem newline_not_mem_pyStrNat (n : Nat) : '\n' ∉ (pyStrNat n).data :=
  newline_not_mem_natDigitsAux (n + 1) n [] (by simp)

theorem newline_not_mem_pyStrInt (i : Int) : '\n' ∉ (pyStrInt i).data := by
  cases i with
  | ofNat m => exact newline_not_mem_pyStrNat m
  | negSucc m =>
    simp only [pyStrInt, string_data_append]
    intro hm
    rcases List.mem_append.mp hm with hm | hm
    · exact absurd hm (by decide)
    · exact newline_not_mem_pyStrNat (m + 1) hm

theorem truncationNotice_data (N : Int) (M : Nat) :
    (truncationNotice N M).data
      = '\n' :: '\n' :: ("... Output truncated. Showing ".data ++ (pyStrInt N).data
          ++ " of ".data ++ (pyStrNat M).data ++ " lines ...".data) := by
  simp only [truncationNotice, string_data_append, List.append_assoc]
  rfl

theorem newline_not_mem_noticeTail (N : Int) (M : Nat) :
    '\n' ∉ ("... Output truncated. Showing ".data ++ (pyStrInt N).data
        ++ " of ".data ++ (pyStrNat M).data ++ " lines ...".data) := by
  intro hm
  simp only [List.mem_append] at hm
  rcases hm with ((((hm | hm) | hm) | hm) | hm)
  · exact absurd hm (by decide)
  · exact newline_not_mem_pyStrInt N hm
  · exact absurd hm (by decide)
  · exact newline_not_mem_pyStrNat M hm
  · exact absurd hm (by decide)

theorem foldl_maxStep_of_le (t : List (String × Nat)) : ∀ (b : String × Nat),
    (∀ x ∈ t, x.2 ≤ b.2) → t.foldl maxStep b = b := by
  induction t with
  | nil => intro b _; rfl
  | cons x t ih =>
    intro b hb
    have hx : x.2 ≤ b.2 := hb x (List.mem_cons_self x t)
    have hstep : maxStep b x = b := by
      unfold maxStep
      rw [if_neg (by omega)]
    rw [List.foldl_cons, hstep]
    exact ih b (fun y hy => hb y (List.mem_cons_of_mem x hy))

theorem foldl_maxStep_first_max (t : List (String × Nat)) : ∀ (b : String × Nat) (i : Nat)
    (hi : i < t.length),
    (∀ j (hj : j < t.length), (t.get ⟨j, hj⟩).2 ≤ (t.get ⟨i, hi⟩).2) →
    b.2 < (t.get ⟨i, hi⟩).2 →
    (∀ j (hj : j < t.length), j < i → (t.get ⟨j, hj⟩).2 < (t.get ⟨i, hi⟩).2) →
    t.foldl maxStep b = t.get ⟨i, hi⟩ := by
  induction t with
  | nil => intro b i hi _ _ _; exact absurd hi (Nat.not_lt_zero i)
  | cons x t ih =>
    intro b i hi hmax hb hfirst
    cases i with
    | zero =>
      have hstep : maxStep b x = x := by
        unfold maxStep
        rw [if_pos ?_]
        exact hb
      rw [List.foldl_cons, hstep]
      refine foldl_maxStep_of_le t x ?_
      intro y hy
      obtain ⟨⟨j, hj⟩, rfl⟩ := List.mem_iff_get.mp hy
      exact hmax (j + 1) (Nat.succ_lt_succ hj)
    | succ k =>
      have hk : k < t.length := Nat.lt_of_succ_lt_succ hi
      have hx_lt : x.2 < (t.get ⟨k, hk⟩).2 :=
        hfirst 0 (Nat.zero_lt_succ _) (Nat.zero_lt_succ k)
      rw [List.foldl_cons]
      refine ih (maxStep b x) k hk ?_ ?_ ?_
      · intro j hj
        exact hmax (j + 1) (Nat.succ_lt_succ hj)
      · unfold maxStep
        split
        · exact hx_lt
        · exact hb
      · intro j hj hjk
        exact hfirst (j + 1) (Nat.succ_lt_succ hj) (Nat.succ_lt_succ hjk)

theorem parseNameStatusLine_two_fields (line status filename : String) (rest : List String)
    (h : pySplit line '\t' = status :: filename :: rest) :
    parseNameStatusLine line = [⟨status, filename⟩] := by
  have hne : line ≠ "" := by
    intro he
    rw [he, show pySplit "" '\t' = [""] from rfl] at h
    simp at h
  unfold parseNameStatusLine
  rw [if_neg hne, h]

theorem parseNameStatusLine_one_field (line only : String)
    (h : pySplit line '\t' = [only]) :
    parseNameStatusLine line = [] := by
  unfold parseNameStatusLine
  by_cases he : line = ""
  · rw [if_pos he]
  · rw [if_neg he, h]

theorem mem_parse_changed_files (stdout : String) (cf : ChangedFile)
    (h : cf ∈ parse_changed_files stdout) :
    ∃ line ∈ pySplit (pyStrip stdout) '\n', line ≠ "" ∧
      ∃ rest, pySplit line '\t' = cf.status :: cf.filename :: rest := by
  unfold parse_changed_files at h
  obtain ⟨l, hl, hcf⟩ := List.mem_flatten.mp h
  obtain ⟨line, hline, rfl⟩ := List.mem_map.mp hl
  refine ⟨line, hline, ?_, ?_⟩
  · intro he
    rw [he] at hcf
    simp [parseNameStatusLine] at hcf
  · unfold parseNameStatusLine at hcf
    by_cases he : line = ""
    · rw [if_pos he] at hcf
      simp at hcf
    · rw [if_neg he] at hcf
      cases hsp : pySplit line '\t' with
      | nil => rw [hsp] at hcf; simp at hcf
      | cons s rest1 =>
        cases rest1 with
        | nil => rw [hsp] at hcf; simp at hcf
        | cons f rest2 =>
          rw [hsp] at hcf
          have : cf = ⟨s, f⟩ := by simpa using hcf
          subst this
          exact ⟨rest2, rfl⟩

theorem dictInsert_eq_append {α : Type} (k : String) (v : α) :
    ∀ (d : List (String × α)), k ∉ d.map Prod.fst → dictInsert d k v = d ++ [(k, v)] := by
  intro d
  induction d with
  | nil => intro _; rfl
  | cons p t ih =>
    intro hk
    obtain ⟨k0, v0⟩ := p
    have hne : k0 ≠ k := by
      intro he
      exact hk (by simp [he])
    unfold dictInsert
    rw [if_neg hne, ih (fun hm => hk (List.mem_cons_of_mem _ hm))]
    rfl

theorem alistGet?_of_mem_nodup {α : Type} (k : String) (v : α) :
    ∀ (l : List (String × α)), (l.map Prod.fst).Nodup → (k, v) ∈ l →
      alistGet? l k = some v := by
  intro l
  induction l with
  | nil => intro _ hm; simp at hm
  | cons p t ih =>
    intro hnd hm
    obtain ⟨k0, v0⟩ := p
    unfold alistGet?
    by_cases he : k0 = k
    · rw [if_pos he]
      subst he
      rcases List.mem_cons.mp hm with hm | hm
      · cases hm
        rfl
      · exfalso
        have hkmem : k0 ∈ t.map Prod.fst := List.mem_map.mpr ⟨(k0, v), hm, rfl⟩
        exact (List.nodup_cons.mp (by simpa using hnd)).1 hkmem
    · rw [if_neg he]
      rcases List.mem_cons.mp hm with hm | hm
      · exact absurd (congrArg Prod.fst hm).symm he
      · exact ih (List.nodup_cons.mp (by simpa using hnd)).2 hm

theorem alistGet?_ne_nil {α : Type} (l : List (String × α)) (k : String) (v : α)
    (h : alistGet? l k = some v) : l ≠ [] := by
  intro he
  rw [he] at h
  simp [alistGet?] at h

theorem buildRegistry_eq_map (dir : String) :
    ∀ (files : List (String × ReadOutcome)) (acc : List (String × TemplateVal)),
    ((acc ++ files.map (templateEntry dir)).map Prod.fst).Nodup →
    files.foldl
        (fun d f => dictInsert d (templateEntry dir f).1 (templateEntry dir f).2) acc
      = acc ++ files.map (templateEntry dir) := by
  intro files
  induction files with
  | nil => intro acc _; simp
  | cons f fs ih =>
    intro acc hnd
    have hkey : (templateEntry dir f).1 ∉ acc.map Prod.fst := by
      intro hmem
      rw [List.map_cons, List.map_append] at hnd
      exact (List.nodup_append.mp hnd).2.2 hmem (by simp)
    rw [List.foldl_cons, dictInsert_eq_append _ _ acc hkey,
      ih (acc ++ [templateEntry dir f]) (by simpa [List.append_assoc] using hnd)]
    simp

theorem pySplitChar_cons_self (sep : Char) (cs : List Char) :
    pySplitChar sep (sep :: cs) = [] :: pySplitChar sep cs := by
  simp [pySplitChar]

theorem computeDiffOutput_eq_ite (N : Int) (s : String) :
    computeDiffOutput N s
      = if (((pySplit s '\n').length : Nat) : Int) > N
        then pyJoin '\n' (pyTake N (pySplit s '\n'))
          ++ truncationNotice N (pySplit s '\n').length
        else s := rfl

theorem computeDiffOutput_of_le (N : Int) (s : String)
    (h : ((pySplit s '\n').length : Int) ≤ N) : computeDiffOutput N s = s := by
  rw [computeDiffOutput_eq_ite, if_neg (by omega)]

theorem pySplit_computeDiffOutput_of_gt (N : Int) (hN : 0 ≤ N) (s : String)
    (hgt : ((pySplit s '\n').length : Int) > N) :
    pySplit (computeDiffOutput N s) '\n'
      = (if N.toNat = 0 then [""] else (pySplit s '\n').take N.toNat)
        ++ ["", "... Output truncated. Showing " ++ pyStrInt N ++ " of "
            ++ pyStrNat (pySplit s '\n').length ++ " lines ..."] := by
  have hM : N.toNat < (pySplit s '\n').length := by omega
  have htake : pyTake N (pySplit s '\n') = (pySplit s '\n').take N.toNat := by
    unfold pyTake
    rw [if_pos hN]
  have hd : computeDiffOutput N s
      = pyJoin '\n' ((pySplit s '\n').take N.toNat)
        ++ truncationNotice N (pySplit s '\n').length := by
    rw [computeDiffOutput_eq_ite, if_pos hgt, htake]
  have hTdata : ("... Output truncated. Showing " ++ pyStrInt N ++ " of "
        ++ pyStrNat (pySplit s '\n').length ++ " lines ...").data
      = "... Output truncated. Showing ".data ++ (pyStrInt N).data
        ++ " of ".data ++ (pyStrNat (pySplit s '\n').length).data ++ " lines ...".data := by
    simp only [string_data_append]
  have hsplitdata : pySplitChar '\n' (computeDiffOutput N s).data
      = pySplitChar '\n'
          (pyJoinChar '\n' (((pySplit s '\n').take N.toNat).map String.data))
        ++ [[], ("... Output truncated. Showing " ++ pyStrInt N ++ " of "
            ++ pyStrNat (pySplit s '\n').length ++ " lines ...").data] := by
    rw [hd, string_data_append,
      show (pyJoin '\n' ((pySplit s '\n').take N.toNat)).data
        = pyJoinChar '\n' (((pySplit s '\n').take N.toNat).map String.data) from rfl,
      truncationNotice_data, ← hTdata, pySplitChar_append]
    congr 1
    rw [pySplitChar_cons_self,
      pySplitChar_of_not_mem '\n' _ (by rw [hTdata]; exact newline_not_mem_noticeTail N _)]
  by_cases hk : N.toNat = 0
  · rw [show pySplit (computeDiffOutput N s) '\n'
        = (pySplitChar '\n' (computeDiffOutput N s).data).map String.mk from rfl,
      hsplitdata, hk, List.take_zero, if_pos rfl]
    rfl
  · have hpos : 0 < N.toNat := Nat.pos_of_ne_zero hk
    have hjoin : pySplitChar '\n'
          (pyJoinChar '\n' (((pySplit s '\n').take N.toNat).map String.data))
        = ((pySplit s '\n').take N.toNat).map String.data := by
      apply pySplitChar_pyJoinChar
      · intro x hx
        obtain ⟨line, hline, rfl⟩ := List.mem_map.mp hx
        have hlineL : line ∈ pySplit s '\n' := List.mem_of_mem_take hline
        obtain ⟨y, hy, rfl⟩ := List.mem_map.mp hlineL
        exact not_mem_of_mem_pySplitChar '\n' s.data y hy
      · have hlen : (((pySplit s '\n').take N.toNat).map String.data).length = N.toNat := by
          simp only [List.length_map, List.length_take]
          omega
        intro he
        rw [he] at hlen
        simp only [List.length_nil] at hlen
        omega
    rw [show pySplit (computeDiffOutput N s) '\n'
        = (pySplitChar '\n' (computeDiffOutput N s).data).map String.mk from rfl,
      hsplitdata, hjoin, if_neg hk, List.map_append, List.map_map,
      show (String.mk ∘ String.data) = id from funext fun _ => rfl, List.map_id]
    rfl

theorem getLast?_append_pair {α : Type} (X : List α) (a b : α) :
    (X ++ [a, b]).getLast? = some b := by
  rw [show X ++ [a, b] = (X ++ [a]) ++ [b] from by simp, List.getLast?_concat]

theorem bestMatch_first_max (L : List (String × Nat)) (i : Nat) (hi : i < L.length)
    (hmax : ∀ j (hj : j < L.length), (L.get ⟨j, hj⟩).2 ≤ (L.get ⟨i, hi⟩).2)
    (hfirst : ∀ j (hj : j < L.length), j < i → (L.get ⟨j, hj⟩).2 < (L.get ⟨i, hi⟩).2) :
    bestMatch L = L.get ⟨i, hi⟩ := by
  cases L with
  | nil => exact absurd hi (Nat.not_lt_zero i)
  | cons h t =>
    cases i with
    | zero =>
      show t.foldl maxStep h = (h :: t).get ⟨0, hi⟩
      refine foldl_maxStep_of_le t h ?_
      intro y hy
      obtain ⟨⟨j, hj⟩, rfl⟩ := List.mem_iff_get.mp hy
      exact hmax (j + 1) (Nat.succ_lt_succ hj)
    | succ k =>
      have hk : k < t.length := Nat.lt_of_succ_lt_succ hi
      show t.foldl maxStep h = (h :: t).get ⟨k + 1, hi⟩
      refine foldl_maxStep_first_max t h k hk ?_ ?_ ?_
      · intro j hj
        exact hmax (j + 1) (Nat.succ_lt_succ hj)
      · exact hfirst 0 (Nat.zero_lt_succ _) (Nat.zero_lt_succ k)
      · intro j hj hjk
        exact hfirst (j + 1) (Nat.succ_lt_succ hj) (Nat.succ_lt_succ hjk)

theorem keywordStage_no_template (changes_summary : String)
    (templates : List (String × TemplateVal))
    (hpos : (bestMatch (computeScores (pyLower changes_summary))).2 > 0)
    (hnotin : alistGet? templates
        (bestMatch (computeScores (pyLower changes_summary))).1 = none) :
    keywordStage changes_summary templates = defaultFallback templates := by
  simp only [keywordStage]
  rw [if_pos hpos, hnotin]

theorem directMatch_eq_some (ct : String) (templates : List (String × TemplateVal))
    (name : String) (tpl : TemplateVal)
    (h1 : alistGet? common_types ct = some name)
    (h2 : alistGet? templates name = some tpl) :
    directMatch ct templates = some (name, tpl) := by
  simp [directMatch, h1, h2]

/-- C1 counterexample: at maxDiffLines 1 and a three-line diff, the diff
field of the analyze_file_changes response has 3 lines, not the 1 + 1 = 2
lines the claim asserts: the source appends the notice after a blank line,
so the truncated text is the kept lines plus two lines, not one. -/
theorem C1_truncation_counterexample :
    analyze_file_changes "main" true 1 ⟨0, "a\nb\nc", ""⟩ ⟨0, "stats", ""⟩ ⟨0, "", ""⟩
      = .ok "stats" 3 [] (computeDiffOutput 1 ("a\nb\nc"))
    ∧ (pySplit (computeDiffOutput 1 ("a\nb\nc")) '\n').length = 3
    ∧ ¬ (pySplit (computeDiffOutput 1 ("a\nb\nc")) '\n').length = 1 + 1 := by
  decide

/-- C1 (amended): for maxDiffLines N at least 0 and all three git commands
succeeding, the diff field of the analyze_file_changes response is
computeDiffOutput N diff; a diff of M lines with M at most N is returned
verbatim; with M exceeding N the diff field has max N 1 + 2 lines (the
first N lines kept verbatim, then one blank line, then the notice line) —
not the N + 1 lines the original claim states — and its last line states
the truncation counts N and M exactly. -/
theorem C1_truncation_amended (base_branch : String) (N : Int) (hN : 0 ≤ N)
    (dr sr fr : GitResult) (hdr : dr.returncode = 0) (hsr : sr.returncode = 0)
    (hfr : fr.returncode = 0) :
    analyze_file_changes base_branch true N dr sr fr
      = .ok sr.stdout (pySplit dr.stdout '\n').length (parse_changed_files fr.stdout)
          (computeDiffOutput N dr.stdout)
    ∧ (((pySplit dr.stdout '\n').length : Int) ≤ N →
        computeDiffOutput N dr.stdout = dr.stdout)
    ∧ (((pySplit dr.stdout '\n').length : Int) > N →
        (pySplit (computeDiffOutput N dr.stdout) '\n').length = max N.toNat 1 + 2
        ∧ (pySplit (computeDiffOutput N dr.stdout) '\n').getLast?
            = some ("... Output truncated. Showing " ++ pyStrInt N ++ " of "
                ++ pyStrNat (pySplit dr.stdout '\n').length ++ " lines ...")) := by
  refine ⟨?_, computeDiffOutput_of_le N dr.stdout, ?_⟩
  · unfold analyze_file_changes
    rw [if_neg (fun h => h hdr), if_neg (fun h => h hsr), if_neg (fun h => h hfr),
      if_pos rfl]
  · intro hgt
    constructor
    · rw [pySplit_computeDiffOutput_of_gt N hN dr.stdout hgt]
      by_cases hk : N.toNat = 0
      · rw [if_pos hk]
        simp only [List.length_append, List.length_cons, List.length_nil,
          List.length_singleton]
        omega
      · rw [if_neg hk]
        simp only [List.length_append, List.length_cons, List.length_nil,
          List.length_take]
        omega
    · rw [pySplit_computeDiffOutput_of_gt N hN dr.stdout hgt, getLast?_append_pair]

/-- C1 witness: maxDiffLines 2 against a four-line diff gives a diff field
of 4 lines whose last line shows 2 of 4. -/
theorem C1_truncation_amended_witness :
    analyze_file_changes "main" true 2 ⟨0, "a\nb\nc\nd", ""⟩ ⟨0, "stats", ""⟩ ⟨0, "", ""⟩
      = .ok "stats" 4 [] (computeDiffOutput 2 ("a\nb\nc\nd"))
    ∧ (pySplit (computeDiffOutput 2 ("a\nb\nc\nd")) '\n').length = 4
    ∧ (pySplit (computeDiffOutput 2 ("a\nb\nc\nd")) '\n').getLast?
        = some ("... Output truncated. Showing 2 of 4 lines ...") := by
  have h := C1_truncation_amended "main" 2 (by decide) ⟨0, "a\nb\nc\nd", ""⟩
    ⟨0, "stats", ""⟩ ⟨0, "", ""⟩ rfl rfl rfl
  refine ⟨h.1, ?_, ?_⟩
  · rw [(h.2.2 (by decide)).1]
    decide
  · rw [(h.2.2 (by decide)).2]
    decide

/-- C2 counterexample: the name-status line consisting of the letter M,
two tabs and the letter x yields an entry whose status has length 1 (the
claim demands at least 2) and whose filename is empty (the claim demands
non-empty): the parser imposes no such constraints. -/
theorem C2_changed_files_counterexample :
    analyze_file_changes "main" true 500 ⟨0, "", ""⟩ ⟨0, "", ""⟩ ⟨0, "M\t\tx", ""⟩
      = .ok "" 1 [⟨"M", ""⟩] ""
    ∧ ("M" : String).length < 2
    ∧ ("" : String).length = 0 := by
  decide

/-- C2 (amended): every changed-files entry of a successful
analyze_file_changes response arises from a non-empty line of the stripped
name-status output whose tab-split has the entry status as first field and
the entry filename as second field; no status-length or
filename-non-emptiness constraint holds. -/
theorem C2_changed_files_amended (base_branch : String) (include_diff : Bool) (N : Int)
    (dr sr fr : GitResult) (stats : String) (total : Nat) (files : List ChangedFile)
    (diff : String)
    (hok : analyze_file_changes base_branch include_diff N dr sr fr
      = .ok stats total files diff)
    (cf : ChangedFile) (hcf : cf ∈ files) :
    ∃ line ∈ pySplit (pyStrip fr.stdout) '\n', line ≠ "" ∧
      ∃ rest, pySplit line '\t' = cf.status :: cf.filename :: rest := by
  have hfiles : files = parse_changed_files fr.stdout := by
    unfold analyze_file_changes at hok
    split at hok
    · exact absurd hok (by simp)
    · split at hok
      · exact absurd hok (by simp)
      · split at hok
        · exact absurd hok (by simp)
        · injection hok with h1 h2 h3 h4
          exact h3.symm
  rw [hfiles] at hcf
  exact mem_parse_changed_files fr.stdout cf hcf

/-- C2 witness: the entry M, server.py of the single-line name-status
output M tab server.py arises from that line. -/
theorem C2_changed_files_amended_witness :
    ∃ line ∈ pySplit (pyStrip ("M\tserver.py")) '\n', line ≠ "" ∧
      ∃ rest, pySplit line '\t' = ("M" : String) :: "server.py" :: rest :=
  C2_changed_files_amended "main" true 500 ⟨0, "", ""⟩ ⟨0, "", ""⟩ ⟨0, "M\tserver.py", ""⟩
    "" 1 [⟨"M", "server.py"⟩] "" (by decide) ⟨"M", "server.py"⟩ (by decide)

/-- C3: in the keyword-scoring stage, whenever position i of the scores
list (whose order is the keyword-table declaration order bug, feature,
docs, refactor, test, security, performance) attains the highest score and
every earlier position scores strictly less, the Python max selects
exactly that entry: on ties the earliest-declared category wins,
deterministically. -/
theorem C3_keyword_tie_break (changes_summary : String) (i : Nat)
    (hi : i < (computeScores changes_summary).length)
    (hmax : ∀ j (hj : j < (computeScores changes_summary).length),
      ((computeScores changes_summary).get ⟨j, hj⟩).2
        ≤ ((computeScores changes_summary).get ⟨i, hi⟩).2)
    (hfirst : ∀ j (hj : j < (computeScores changes_summary).length), j < i →
      ((computeScores changes_summary).get ⟨j, hj⟩).2
        < ((computeScores changes_summary).get ⟨i, hi⟩).2) :
    bestMatch (computeScores changes_summary)
      = (computeScores changes_summary).get ⟨i, hi⟩ :=
  bestMatch_first_max (computeScores changes_summary) i hi hmax hfirst

/-- C3 witness: the summary docs refactor scores exactly one keyword each
for docs (position 2) and refactor (position 3) and zero elsewhere, and
docs, the earlier-declared of the two, is selected. -/
theorem C3_keyword_tie_break_witness :
    bestMatch (computeScores ("docs refactor")) = ("docs", 1) := by
  rw [C3_keyword_tie_break ("docs refactor") 2 (by decide) (by decide) (by decide)]
  decide

/-- C4: when stage 1 finds no usable direct match, the keyword winner has
positive score, and the winner is not a registry key, suggest_template
returns the stage-3 default; there is no ranked fallback to the next-best
category: the default is the feature template with confidence low when it
exists, otherwise the first registry entry in discovery order with
confidence low. -/
theorem C4_keyword_single_shot (changes_summary change_type templates_dir : String)
    (files : List (String × ReadOutcome))
    (hne : buildRegistry templates_dir files ≠ [])
    (hmiss : directMatch (pyStrip (pyLower change_type))
        (buildRegistry templates_dir files) = none)
    (hpos : (bestMatch (computeScores (pyLower changes_summary))).2 > 0)
    (hnotin : alistGet? (buildRegistry templates_dir files)
        (bestMatch (computeScores (pyLower changes_summary))).1 = none) :
    suggest_template changes_summary change_type templates_dir true files
      = defaultFallback (buildRegistry templates_dir files)
    ∧ (∀ tpl, alistGet? (buildRegistry templates_dir files) "feature" = some tpl →
        defaultFallback (buildRegistry templates_dir files)
          = .found "feature" tpl "low"
              "No strong match found, defaulting to feature template")
    ∧ (alistGet? (buildRegistry templates_dir files) "feature" = none →
        ∀ first_name first_tpl rest,
          buildRegistry templates_dir files = (first_name, first_tpl) :: rest →
          defaultFallback (buildRegistry templates_dir files)
            = .found first_name first_tpl "low"
                "No match found, using first available template") := by
  refine ⟨?_, ?_, ?_⟩
  · show suggestFromTemplates changes_summary change_type (buildRegistry templates_dir files)
      = _
    unfold suggestFromTemplates
    rw [if_neg (fun hl => hne (List.length_eq_zero.mp hl)), hmiss]
    exact keywordStage_no_template changes_summary _ hpos hnotin
  · intro tpl htpl
    unfold defaultFallback
    rw [htpl]
  · intro hnone first_name first_tpl rest hreg
    unfold defaultFallback
    rw [hnone, hreg]

/-- C4 witness: summary crash scores 1 for bug, the registry holds only a
docs template, change type unknown has no direct mapping; the result is
the first (and only) registry entry with confidence low. -/
theorem C4_keyword_single_shot_witness :
    suggest_template "crash" "unknown" "tdir" true [("docs.md", ReadOutcome.ok "D")]
      = .found "docs" (TemplateVal.ok "docs" "tdir/docs.md" "D") "low"
          "No match found, using first available template" := by
  rw [(C4_keyword_single_shot "crash" "unknown" "tdir" [("docs.md", ReadOutcome.ok "D")]
    (by decide) (by decide) (by decide) (by decide)).1]
  decide

/-- C5: with change type fix and a bug template present in the registry,
suggest_template returns suggestion bug with confidence high whatever the
changes summary says: the direct-mapping stage wins before keyword scoring
is consulted. -/
theorem C5_direct_mapping_wins (changes_summary templates_dir : String)
    (files : List (String × ReadOutcome)) (tpl : TemplateVal)
    (h : alistGet? (buildRegistry templates_dir files) "bug" = some tpl) :
    suggest_template changes_summary "fix" templates_dir true files
      = .found "bug" tpl "high" "Direct match for change type \x27fix\x27" := by
  show suggestFromTemplates changes_summary "fix" (buildRegistry templates_dir files) = _
  unfold suggestFromTemplates
  rw [if_neg (fun hl => alistGet?_ne_nil _ _ _ h (List.length_eq_zero.mp hl)),
    show pyStrip (pyLower "fix") = "fix" from rfl,
    directMatch_eq_some "fix" _ "bug" tpl rfl h]
  rfl

/-- C5 witness: a summary full of docs keywords still maps fix to the bug
template with confidence high. -/
theorem C5_direct_mapping_wins_witness :
    suggest_template "documentation readme guide" "fix" "tdir" true
        [("bug.md", ReadOutcome.ok "B")]
      = .found "bug" (TemplateVal.ok "bug" "tdir/bug.md" "B") "high"
          "Direct match for change type \x27fix\x27" :=
  C5_direct_mapping_wins "documentation readme guide" "tdir"
    [("bug.md", ReadOutcome.ok "B")] (TemplateVal.ok "bug" "tdir/bug.md" "B") (by decide)

/-- C6: name-status parsing is total (parseNameStatusLine is a total Lean
function); a line splitting on tab into exactly two fields contributes
exactly one entry carrying those two fields, and a line with a single
field contributes no entry and is silently dropped. -/
theorem C6_name_status_parsing_total (line : String) :
    (∀ status filename, pySplit line '\t' = [status, filename] →
      parseNameStatusLine line = [⟨status, filename⟩])
    ∧ (∀ only, pySplit line '\t' = [only] → parseNameStatusLine line = []) :=
  ⟨fun status filename h => parseNameStatusLine_two_fields line status filename [] h,
   fun only h => parseNameStatusLine_one_field line only h⟩

/-- C6 witness: the two-field line M tab server.py yields one entry and
the tab-free line nofields yields none. -/
theorem C6_name_status_parsing_total_witness :
    parseNameStatusLine ("M\tserver.py") = [⟨"M", "server.py"⟩]
    ∧ parseNameStatusLine ("nofields") = [] :=
  ⟨(C6_name_status_parsing_total ("M\tserver.py")).1 "M" "server.py" (by decide),
   (C6_name_status_parsing_total ("nofields")).2 "nofields" (by decide)⟩

/-- C7: with distinct registry keys, a template file whose read fails
still appears in the mapping get_pr_templates returns, keyed by its full
filename and carrying the read-failure message instead of content, and
every other listed file is still processed and present. -/
theorem C7_partial_read_failure (templates_dir : String)
    (files : List (String × ReadOutcome)) (fn e : String)
    (hnd : ((files.map (templateEntry templates_dir)).map Prod.fst).Nodup)
    (hmem : (fn, ReadOutcome.err e) ∈ files) :
    get_pr_templates templates_dir true files = .ok (buildRegistry templates_dir files)
    ∧ alistGet? (buildRegistry templates_dir files) fn
        = some (.err fn ("Failed to read template: " ++ e))
    ∧ ∀ g ∈ files, ∃ v,
        alistGet? (buildRegistry templates_dir files) (templateEntry templates_dir g).1
          = some v := by
  have hbr : buildRegistry templates_dir files
      = files.map (templateEntry templates_dir) := by
    have h := buildRegistry_eq_map templates_dir files [] (by simpa using hnd)
    simpa [buildRegistry] using h
  refine ⟨rfl, ?_, ?_⟩
  · rw [hbr]
    exact alistGet?_of_mem_nodup fn _ _ hnd
      (List.mem_map.mpr ⟨(fn, ReadOutcome.err e), hmem, rfl⟩)
  · intro g hg
    refine ⟨(templateEntry templates_dir g).2, ?_⟩
    rw [hbr]
    exact alistGet?_of_mem_nodup _ _ _ hnd (List.mem_map.mpr ⟨g, hg, rfl⟩)

/-- C7 witness: with bug.md readable, broken.md unreadable with message
Permission denied, and feature.md readable, the call succeeds and the
mapping holds broken.md keyed by full filename with the error message. -/
theorem C7_partial_read_failure_witness :
    get_pr_templates "tdir" true
        [("bug.md", ReadOutcome.ok "B"), ("broken.md", ReadOutcome.err "Permission denied"),
          ("feature.md", ReadOutcome.ok "F")]
      = .ok (buildRegistry "tdir"
          [("bug.md", ReadOutcome.ok "B"), ("broken.md", ReadOutcome.err "Permission denied"),
            ("feature.md", ReadOutcome.ok "F")])
    ∧ alistGet? (buildRegistry "tdir"
          [("bug.md", ReadOutcome.ok "B"), ("broken.md", ReadOutcome.err "Permission denied"),
            ("feature.md", ReadOutcome.ok "F")]) "broken.md"
        = some (.err "broken.md" "Failed to read template: Permission denied") := by
  have h := C7_partial_read_failure "tdir"
    [("bug.md", ReadOutcome.ok "B"), ("broken.md", ReadOutcome.err "Permission denied"),
      ("feature.md", ReadOutcome.ok "F")] "broken.md" "Permission denied"
    (by decide) (by decide)
  exact ⟨h.1, h.2.1⟩

/-- C8: suggest_template against an existing templates directory holding
zero template documents returns the structured no-templates-available
error with no suggestion, for every summary and change type; the Lean
embedding is total, so no exception escapes. -/
theorem C8_empty_registry (changes_summary change_type templates_dir : String) :
    suggest_template changes_summary change_type templates_dir true []
      = .errNone "No templates available" := rfl

/-- C9: a name-status line whose tab-split has three or more fields (such
as a rename line) contributes exactly one entry: status is the first
field, filename the second, and the remaining fields are silently
discarded. -/
theorem C9_extra_fields_dropped (line status filename : String) (rest : List String)
    (h : pySplit line '\t' = status :: filename :: rest) :
    parseNameStatusLine line = [⟨status, filename⟩] :=
  parseNameStatusLine_two_fields line status filename rest h

/-- C9 witness: the rename line R100 tab old.py tab new.py yields the
single entry R100, old.py, with new.py discarded. -/
theorem C9_extra_fields_dropped_witness :
    parseNameStatusLine ("R100\told.py\tnew.py") = [⟨"R100", "old.py"⟩] :=
  C9_extra_fields_dropped ("R100\told.py\tnew.py") "R100" "old.py" ["new.py"] (by decide)

/-- C10: with all three git commands succeeding, include_diff false and
include_diff true return the same stats, the same total_diff_lines (the
real diff line count, since the diff command still runs), and the same
files_changed; only the diff field differs, being the fixed placeholder
when include_diff is false and the possibly-truncated diff when true. -/
theorem C10_include_diff_frame (base_branch : String) (N : Int)
    (dr sr fr : GitResult) (hdr : dr.returncode = 0) (hsr : sr.returncode = 0)
    (hfr : fr.returncode = 0) :
    analyze_file_changes base_branch false N dr sr fr
      = .ok sr.stdout (pySplit dr.stdout '\n').length (parse_changed_files fr.stdout)
          "Diff not included (set include_diff=true to see it)"
    ∧ analyze_file_changes base_branch true N dr sr fr
      = .ok sr.stdout (pySplit dr.stdout '\n').length (parse_changed_files fr.stdout)
          (computeDiffOutput N dr.stdout) := by
  constructor
  · unfold analyze_file_changes
    rw [if_neg (fun h => h hdr), if_neg (fun h => h hsr), if_neg (fun h => h hfr)]
    rfl
  · unfold analyze_file_changes
    rw [if_neg (fun h => h hdr), if_neg (fun h => h hsr), if_neg (fun h => h hfr),
      if_pos rfl]

/-- C10 witness: a fixed one-line diff with one changed file gives the
same stats, total and files under both flags, differing only in the diff
field. -/
theorem C10_include_diff_frame_witness :
    analyze_file_changes "main" false 500 ⟨0, "dline", ""⟩ ⟨0, "stats", ""⟩
        ⟨0, "M\tf.py", ""⟩
      = .ok "stats" 1 [⟨"M", "f.py"⟩] "Diff not included (set include_diff=true to see it)"
    ∧ analyze_file_changes "main" true 500 ⟨0, "dline", ""⟩ ⟨0, "stats", ""⟩
        ⟨0, "M\tf.py", ""⟩
      = .ok "stats" 1 [⟨"M", "f.py"⟩] "dline" :=
  C10_include_diff_frame "main" 500 ⟨0, "dline", ""⟩ ⟨0, "stats", ""⟩ ⟨0, "M\tf.py", ""⟩
    rfl rfl rfl

